import Mathlib

/-!
# Verification of the xrcad B-rep kernel specification

Shallow embedding of the xrcad geometry kernel (Rust sources under
`src/xrcad_lib/src/model/`) together with proofs settling the frozen claims
about it.

Modelling conventions:
* `f64` values are modelled as real numbers (`ℝ`); where a definition does not
  depend on real-specific operations it is stated over an arbitrary `Field α`
  so that witnesses can be evaluated over `ℚ` by `decide`.
* Rust `HashMap<K, V>` arguments are modelled as association lists
  `List (K × V)`; `HashMap::get` becomes `List.lookup` and map iteration
  becomes list traversal (the derived facts proved here do not depend on
  iteration order).
* Typed ids (`ShellId`, `FaceId`, ... — plain newtypes over `u64`) are
  modelled as `ℕ`.
* `Option<T>` becomes `Option T`; methods taking `&mut self` become functions
  returning the updated value.
-/

namespace Xrcad

/-! ## Vectors (nalgebra `Vector3<f64>` / `Point3<f64>`)

Both `Vector3<f64>` and `Point3<f64>` are triples of doubles; `point.coords`
in the source is the identity here. -/

structure Vec3 (α : Type) where
  x : α
  y : α
  z : α
deriving DecidableEq

instance {α : Type} [Add α] : Add (Vec3 α) :=
  ⟨fun u v => ⟨u.x + v.x, u.y + v.y, u.z + v.z⟩⟩

instance {α : Type} [Sub α] : Sub (Vec3 α) :=
  ⟨fun u v => ⟨u.x - v.x, u.y - v.y, u.z - v.z⟩⟩

instance {α : Type} [Neg α] : Neg (Vec3 α) :=
  ⟨fun v => ⟨-v.x, -v.y, -v.z⟩⟩

instance {α : Type} [Mul α] : SMul α (Vec3 α) :=
  ⟨fun s v => ⟨s * v.x, s * v.y, s * v.z⟩⟩

/-- Dot product, `nalgebra`'s `Vector3::dot`. -/
def Vec3.dot {α : Type} [Add α] [Mul α] (u v : Vec3 α) : α :=
  u.x * v.x + u.y * v.y + u.z * v.z

/-- Cross product, `nalgebra`'s `Vector3::cross`. -/
def Vec3.cross {α : Type} [Sub α] [Mul α] (u v : Vec3 α) : Vec3 α :=
  ⟨u.y * v.z - u.z * v.y, u.z * v.x - u.x * v.z, u.x * v.y - u.y * v.x⟩

/-- Squared Euclidean norm. -/
def Vec3.normSq {α : Type} [Add α] [Mul α] (v : Vec3 α) : α :=
  v.x * v.x + v.y * v.y + v.z * v.z

/-- Euclidean norm, `nalgebra`'s `Vector3::norm` (`f64::sqrt` modelled by
`Real.sqrt`). -/
noncomputable def Vec3.norm (v : Vec3 ℝ) : ℝ :=
  Real.sqrt v.normSq

/-- Source `nalgebra`'s `Vector3::normalize`: `v / ‖v‖`.  On the zero vector the
source produces NaN components (0.0/0.0); here division by zero yields the
zero vector. -/
noncomputable def Vec3.normalize (v : Vec3 ℝ) : Vec3 ℝ :=
  (v.norm)⁻¹ • v

/-! ## Shell topology (`src/xrcad_lib/src/model/brep/topology/shell.rs`) -/

/-- Source `ShellOrientation` in `shell.rs`. -/
inductive ShellOrientation where
  | Outward
  | Inward
deriving DecidableEq

/-- Source `Shell` in `shell.rs`.  `FaceRef`/`EdgeRef` are newtypes over typed ids,
modelled as `ℕ`.  The private field `boundary_edges` is the cached
boundary-edge list. -/
structure Shell where
  id : ℕ
  faces : List ℕ
  is_closed : Bool
  orientation : ShellOrientation
  boundary_edges : Option (List ℕ)
deriving DecidableEq

/-- Source `Shell::new`: `is_closed` starts out `false` ("Will be computed"), the
boundary cache starts empty. -/
def Shell.new (id : ℕ) (faces : List ℕ) (orientation : ShellOrientation) : Shell :=
  { id := id, faces := faces, is_closed := false, orientation := orientation,
    boundary_edges := none }

/-- Source `Shell::invalidate_cache`: clears only the boundary-edge cache. -/
def Shell.invalidate_cache (s : Shell) : Shell :=
  { s with boundary_edges := none }

/-- Source `Shell::add_face`: push the face and invalidate the cache. -/
def Shell.add_face (s : Shell) (face : ℕ) : Shell :=
  Shell.invalidate_cache { s with faces := s.faces ++ [face] }

/-- Source `Shell::remove_face`: remove the first occurrence if present (returning
`true`), invalidating the cache; otherwise return the shell unchanged with
`false`.  `Vec::remove(pos)` at the first matching position is
`List.eraseP`-like; we erase the first occurrence. -/
def Shell.remove_face (s : Shell) (face : ℕ) : Shell × Bool :=
  if s.faces.contains face then
    (Shell.invalidate_cache { s with faces := s.faces.erase face }, true)
  else
    (s, false)

/-- The member faces of `s` adjacent to one map entry: the source's
`face_refs.iter().filter(|&&face| self.faces.contains(&face))`. -/
def Shell.facesInShell (s : Shell) (face_refs : List ℕ) : List ℕ :=
  face_refs.filter (fun f => s.faces.contains f)

/-- Source `Shell::compute_closure`: scan the edge→face map; on the first edge whose
member-face count is exactly 1 set `is_closed := false` and return, otherwise
set `is_closed := true` after the loop.  The net effect (independent of
iteration order) is `is_closed := ¬∃ entry with count 1`. -/
def Shell.compute_closure (s : Shell) (edge_face_map : List (ℕ × List ℕ)) : Shell :=
  { s with is_closed :=
      ! edge_face_map.any (fun p => (s.facesInShell p.2).length == 1) }

/-- Source `Shell::compute_boundary_edges`: for a closed shell clear the cache; for
an open shell collect every edge whose member-face count is exactly 1. -/
def Shell.compute_boundary_edges (s : Shell) (edge_face_map : List (ℕ × List ℕ)) : Shell :=
  if s.is_closed then
    { s with boundary_edges := none }
  else
    let boundary :=
      (edge_face_map.filter (fun p => (s.facesInShell p.2).length == 1)).map Prod.fst
    { s with boundary_edges := some boundary }

/-- Source `Shell::compute_properties`: closure first, then boundary edges. -/
def Shell.compute_properties (s : Shell) (edge_face_map : List (ℕ × List ℕ)) : Shell :=
  (s.compute_closure edge_face_map).compute_boundary_edges edge_face_map

/-! ## Body topology (`src/xrcad_lib/src/model/brep/topology/body.rs`) -/

/-- Source `BodyType` in `body.rs`. -/
inductive BodyType where
  | Solid
  | Hollow
  | Open
  | Compound
deriving DecidableEq

/-- Source `Body` in `body.rs`.  The private field `body_type` (the classification
cache) is named `cached_body_type` here because `Body.body_type` is the
accessor method. -/
structure Body where
  id : ℕ
  outer_shell : ℕ
  inner_shells : List ℕ
  cached_body_type : Option BodyType
deriving DecidableEq

/-- Source `Body::new`: just an outer shell, no cached classification. -/
def Body.new (id : ℕ) (outer_shell : ℕ) : Body :=
  { id := id, outer_shell := outer_shell, inner_shells := [],
    cached_body_type := none }

/-- Source `Body::new_solid`: pre-caches `BodyType::Solid`. -/
def Body.new_solid (id : ℕ) (outer_shell : ℕ) : Body :=
  { id := id, outer_shell := outer_shell, inner_shells := [],
    cached_body_type := some BodyType.Solid }

/-- Source `Body::new_hollow`: pre-caches `BodyType::Hollow`. -/
def Body.new_hollow (id : ℕ) (outer_shell : ℕ) (inner_shells : List ℕ) : Body :=
  { id := id, outer_shell := outer_shell, inner_shells := inner_shells,
    cached_body_type := some BodyType.Hollow }

/-- Source `Body::invalidate_cache`. -/
def Body.invalidate_cache (b : Body) : Body :=
  { b with cached_body_type := none }

/-- Source `Body::add_inner_shell`: push and invalidate. -/
def Body.add_inner_shell (b : Body) (shell : ℕ) : Body :=
  Body.invalidate_cache { b with inner_shells := b.inner_shells ++ [shell] }

/-- Source `Body::remove_inner_shell`: remove first occurrence if present and
invalidate; report whether anything was removed. -/
def Body.remove_inner_shell (b : Body) (shell : ℕ) : Body × Bool :=
  if b.inner_shells.contains shell then
    (Body.invalidate_cache { b with inner_shells := b.inner_shells.erase shell }, true)
  else
    (b, false)

/-- Source `Body::body_type`: return the cache when set, otherwise classify from the
shell table (`HashMap<ShellRef, Shell>` modelled as an association list). -/
def Body.body_type (b : Body) (shells : List (ℕ × Shell)) : BodyType :=
  match b.cached_body_type with
  | some t => t
  | none =>
    match shells.lookup b.outer_shell with
    | some shell =>
      if b.inner_shells.isEmpty then
        if shell.is_closed then BodyType.Solid else BodyType.Open
      else
        if shell.is_closed then
          if b.inner_shells.all (fun r =>
              ((shells.lookup r).map Shell.is_closed).getD false) then
            BodyType.Hollow
          else
            BodyType.Compound
        else
          BodyType.Compound
    | none =>
      if b.inner_shells.isEmpty then BodyType.Open else BodyType.Compound

/-- Source `Body::is_valid`: all referenced shells exist in the table. -/
def Body.is_valid (b : Body) (shells : List (ℕ × Shell)) : Bool :=
  (shells.lookup b.outer_shell).isSome &&
    b.inner_shells.all (fun r => (shells.lookup r).isSome)

/-! ## Plane construction utilities (`src/xrcad_lib/src/model/plane_utils.rs`) -/

/-- Source `PlaneConstructionResult` in `plane_utils.rs`. -/
structure PlaneConstructionResult where
  normal : Vec3 ℝ
  origin : Vec3 ℝ
  d_coefficient : ℝ

/-- Source `construct_plane_from_point_normal`: normalize the normal and set
`d = -n·point + offset` (`offset.unwrap_or(0.0)`). -/
noncomputable def construct_plane_from_point_normal
    (point : Vec3 ℝ) (normal : Vec3 ℝ) (offset : Option ℝ) : PlaneConstructionResult :=
  let n := normal.normalize
  { normal := n, origin := point,
    d_coefficient := -(n.dot point) + offset.getD 0 }

/-- Source `construct_plane_from_points`: cross the edge vectors; a cross product of
norm `< 1e-10` yields the all-zero degenerate result, otherwise delegate to
`construct_plane_from_point_normal`. -/
noncomputable def construct_plane_from_points
    (a b c : Vec3 ℝ) : PlaneConstructionResult :=
  let ab := b - a
  let ac := c - a
  let n := ab.cross ac
  if n.norm < 1e-10 then
    { normal := ⟨0, 0, 0⟩, origin := ⟨0, 0, 0⟩, d_coefficient := 0 }
  else
    construct_plane_from_point_normal a n none

/-- Source `construct_plane_from_line_angle`: orthonormal frame around the direction,
normal at `angle` radians from the direction within that frame. -/
noncomputable def construct_plane_from_line_angle
    (point : Vec3 ℝ) (direction : Vec3 ℝ) (angle : ℝ) : PlaneConstructionResult :=
  let dir := direction.normalize
  let up : Vec3 ℝ := if |dir.x| < 0.9 then ⟨1, 0, 0⟩ else ⟨0, 1, 0⟩
  let perp := (dir.cross up).normalize
  let normal := ((Real.cos angle) • dir + (Real.sin angle) • perp).normalize
  construct_plane_from_point_normal point normal none

/-- Source `construct_xy_plane`. -/
def construct_xy_plane : PlaneConstructionResult :=
  { normal := ⟨0, 0, 1⟩, origin := ⟨0, 0, 0⟩, d_coefficient := 0 }

/-- Source `construct_yz_plane`. -/
def construct_yz_plane : PlaneConstructionResult :=
  { normal := ⟨1, 0, 0⟩, origin := ⟨0, 0, 0⟩, d_coefficient := 0 }

/-- Source `construct_xz_plane`. -/
def construct_xz_plane : PlaneConstructionResult :=
  { normal := ⟨0, 1, 0⟩, origin := ⟨0, 0, 0⟩, d_coefficient := 0 }

/-! ## Unified plane geometry (`src/xrcad_lib/src/model/geometry/plane.rs`) -/

/-- Source `PlaneOrigin` in `geometry/plane.rs` (construction provenance). -/
inductive PlaneOrigin where
  | PointNormal (point : Vec3 ℝ) (normal : Vec3 ℝ) (offset : Option ℝ)
  | ThreePoints (a b c : Vec3 ℝ)
  | LineAngle (point : Vec3 ℝ) (direction : Vec3 ℝ) (angle : ℝ)
  | StandardXY
  | StandardYZ
  | StandardXZ
  | Unknown

/-- Source `PlaneRenderMode` in `geometry/plane.rs` (visualization only). -/
inductive PlaneRenderMode where
  | Grid
  | Solid
  | Highlighted
  | Ghosted
  | Wireframe
  | Hidden
deriving DecidableEq

/-- Source `CorePlane` in `geometry/plane.rs`. -/
structure CorePlane where
  normal : Vec3 ℝ
  d : ℝ
  origin : Vec3 ℝ
  construction_origin : PlaneOrigin

/-- Source `CorePlane::new`: normalize the normal, `d = -n·origin`. -/
noncomputable def CorePlane.new (normal : Vec3 ℝ) (origin : Vec3 ℝ) : CorePlane :=
  let n := normal.normalize
  { normal := n, d := -(n.dot origin), origin := origin,
    construction_origin := PlaneOrigin.PointNormal origin n none }

/-- Source `CorePlane::from_point_normal`: degenerate (`None`) iff `‖normal‖ < 1e-10`,
otherwise built by `construct_plane_from_point_normal`. -/
noncomputable def CorePlane.from_point_normal
    (point : Vec3 ℝ) (normal : Vec3 ℝ) (offset : Option ℝ) : Option CorePlane :=
  if normal.norm < 1e-10 then
    none
  else
    let result := construct_plane_from_point_normal point normal offset
    some { normal := result.normal, d := result.d_coefficient,
           origin := result.origin,
           construction_origin := PlaneOrigin.PointNormal point normal offset }

/-- Source `CorePlane::from_points`: build via `construct_plane_from_points`, then
reject when the resulting normal has norm `< 1e-10` (collinear inputs). -/
noncomputable def CorePlane.from_points (a b c : Vec3 ℝ) : Option CorePlane :=
  let result := construct_plane_from_points a b c
  if result.normal.norm < 1e-10 then
    none
  else
    some { normal := result.normal, d := result.d_coefficient,
           origin := result.origin,
           construction_origin := PlaneOrigin.ThreePoints a b c }

/-- Source `CorePlane::from_line_angle`: degenerate (`None`) iff
`‖direction‖ < 1e-10`. -/
noncomputable def CorePlane.from_line_angle
    (point : Vec3 ℝ) (direction : Vec3 ℝ) (angle : ℝ) : Option CorePlane :=
  if direction.norm < 1e-10 then
    none
  else
    let result := construct_plane_from_line_angle point direction angle
    some { normal := result.normal, d := result.d_coefficient,
           origin := result.origin,
           construction_origin := PlaneOrigin.LineAngle point direction angle }

/-- Source `CorePlane::xy`. -/
def CorePlane.xy : CorePlane :=
  { normal := construct_xy_plane.normal, d := construct_xy_plane.d_coefficient,
    origin := construct_xy_plane.origin,
    construction_origin := PlaneOrigin.StandardXY }

/-- Source `CorePlane::yz`. -/
def CorePlane.yz : CorePlane :=
  { normal := construct_yz_plane.normal, d := construct_yz_plane.d_coefficient,
    origin := construct_yz_plane.origin,
    construction_origin := PlaneOrigin.StandardYZ }

/-- Source `CorePlane::xz`. -/
def CorePlane.xz : CorePlane :=
  { normal := construct_xz_plane.normal, d := construct_xz_plane.d_coefficient,
    origin := construct_xz_plane.origin,
    construction_origin := PlaneOrigin.StandardXZ }

/-- Source `CorePlane::distance`: signed distance `normal·point + d`. -/
def CorePlane.distance (p : CorePlane) (point : Vec3 ℝ) : ℝ :=
  p.normal.dot point + p.d

/-- Source `BrepPlane` in `geometry/plane.rs`.  The `render_color : Color` field is
pure visualization state with no geometric content and is not modelled. -/
structure BrepPlane where
  core : CorePlane
  rotation : ℝ
  facing : Bool
  visible : Bool
  render_mode : PlaneRenderMode

/-- Source `BrepPlane::new`. -/
def BrepPlane.new (core : CorePlane) : BrepPlane :=
  { core := core, rotation := 0, facing := true, visible := false,
    render_mode := PlaneRenderMode.Wireframe }

/-- Source `BrepPlane::from_point_normal`. -/
noncomputable def BrepPlane.from_point_normal
    (point : Vec3 ℝ) (normal : Vec3 ℝ) (offset : Option ℝ) : Option BrepPlane :=
  (CorePlane.from_point_normal point normal offset).map BrepPlane.new

/-- Source `BrepPlane::from_points`. -/
noncomputable def BrepPlane.from_points (a b c : Vec3 ℝ) : Option BrepPlane :=
  (CorePlane.from_points a b c).map BrepPlane.new

/-- Source `BrepPlane::from_line_angle`. -/
noncomputable def BrepPlane.from_line_angle
    (point : Vec3 ℝ) (direction : Vec3 ℝ) (angle : ℝ) : Option BrepPlane :=
  (CorePlane.from_line_angle point direction angle).map BrepPlane.new

/-- Rotation of `v` about the unit axis `k` by `θ` radians: Rodrigues'
formula, the action of `nalgebra`'s `Rotation3::from_axis_angle(k, θ)` on a
vector. -/
noncomputable def rotateVec (k : Vec3 ℝ) (θ : ℝ) (v : Vec3 ℝ) : Vec3 ℝ :=
  (Real.cos θ) • v + (Real.sin θ) • (k.cross v) +
    ((1 - Real.cos θ) * k.dot v) • k

/-- Source `BrepPlane::rotate_around_normal`: rotate the origin about the (normalized)
normal axis through `center` (default: the plane origin), then rebuild the
core with `CorePlane::new` from the unchanged normal and the rotated origin.
Rotation bookkeeping accumulates; `facing`/`visible`/`render_mode` carry
over. -/
noncomputable def BrepPlane.rotate_around_normal
    (p : BrepPlane) (angle : ℝ) (center : Option (Vec3 ℝ)) : BrepPlane :=
  let axis := p.core.normal.normalize
  let c := center.getD p.core.origin
  let rel := p.core.origin - c
  let rotated := rotateVec axis angle rel
  let new_origin := c + rotated
  let new_core := CorePlane.new p.core.normal new_origin
  { BrepPlane.new new_core with
      rotation := p.rotation + angle, facing := p.facing,
      visible := p.visible, render_mode := p.render_mode }

/-- Source `BrepPlane::flip_normal`: rebuild the core with `CorePlane::new` from the
negated normal and the same origin; toggle `facing`. -/
noncomputable def BrepPlane.flip_normal (p : BrepPlane) : BrepPlane :=
  let new_core := CorePlane.new (-p.core.normal) p.core.origin
  { BrepPlane.new new_core with
      rotation := p.rotation, facing := !p.facing,
      visible := p.visible, render_mode := p.render_mode }

/-- Source `BrepPlane::distance` delegates to the core plane. -/
def BrepPlane.distance (p : BrepPlane) (point : Vec3 ℝ) : ℝ :=
  p.core.distance point

/-! ## Legacy topology plane (`src/xrcad_lib/src/model/brep/topology/plane.rs`)

A second `Plane` type lives in the topology module; it stores the provenance
directly as its `origin` field.  Its `from_point_normal` and `from_line_angle`
return `Self` (never a failure outcome); only `from_points` returns
`Option<Self>`. -/

/-- Source `PlaneOrigin` in `brep/topology/plane.rs`. -/
inductive TopoPlaneOrigin where
  | PointNormal (point : Vec3 ℝ) (normal : Vec3 ℝ) (offset : Option ℝ)
  | ThreePoints (a b c : Vec3 ℝ)
  | LineAngle (point : Vec3 ℝ) (direction : Vec3 ℝ) (angle : ℝ)
  | StandardXY
  | StandardYZ
  | StandardZX
  | Unknown

/-- Source `PlaneRenderMode` in `brep/topology/plane.rs`. -/
inductive TopoPlaneRenderMode where
  | Simple
  | Ghosted
  | Highlighted
  | Grid
deriving DecidableEq

/-- Source `Plane` in `brep/topology/plane.rs`. -/
structure TopoPlane where
  normal : Vec3 ℝ
  d : ℝ
  origin : TopoPlaneOrigin
  rotation : ℝ
  facing : Bool
  visible : Bool
  render_mode : TopoPlaneRenderMode

/-- Topology `Plane::from_point_normal`: returns a plane unconditionally —
there is no degenerate check and no failure outcome. -/
noncomputable def TopoPlane.from_point_normal
    (point : Vec3 ℝ) (normal : Vec3 ℝ) (offset : Option ℝ) : TopoPlane :=
  let n := normal.normalize
  { normal := n, d := -(n.dot point) + offset.getD 0,
    origin := TopoPlaneOrigin.PointNormal point normal offset,
    rotation := 0, facing := true, visible := true,
    render_mode := TopoPlaneRenderMode.Simple }

/-- Topology `Plane::from_points`: `None` iff the cross product of the edge
vectors has norm `< 1e-10`. -/
noncomputable def TopoPlane.from_points (a b c : Vec3 ℝ) : Option TopoPlane :=
  let ab := b - a
  let ac := c - a
  let n := ab.cross ac
  if n.norm < 1e-10 then
    none
  else
    some { TopoPlane.from_point_normal a n none with
             origin := TopoPlaneOrigin.ThreePoints a b c }

/-- Topology `Plane::from_line_angle`: returns a plane unconditionally —
no degenerate check, no failure outcome. -/
noncomputable def TopoPlane.from_line_angle
    (point : Vec3 ℝ) (direction : Vec3 ℝ) (angle : ℝ) : TopoPlane :=
  let dir := direction.normalize
  let up : Vec3 ℝ := if |dir.x| < 0.9 then ⟨1, 0, 0⟩ else ⟨0, 1, 0⟩
  let perp := (dir.cross up).normalize
  let normal := ((Real.cos angle) • dir + (Real.sin angle) • perp).normalize
  { TopoPlane.from_point_normal point normal none with
      origin := TopoPlaneOrigin.LineAngle point direction angle }

/-- Topology `Plane::flip_normal`: negate both `normal` and `d`, toggle
`facing`. -/
def TopoPlane.flip_normal (p : TopoPlane) : TopoPlane :=
  { p with normal := -p.normal, d := -p.d, facing := !p.facing }

/-- Topology `Plane::distance`: `normal·point + d`. -/
def TopoPlane.distance (p : TopoPlane) (point : Vec3 ℝ) : ℝ :=
  p.normal.dot point + p.d

/-- Topology `Plane::rotate_around_normal`: rotate the stored provenance data
about the (normalized) normal through the given center (defaulting to the
`PointNormal` construction point, else to the point `origin - d·normal`),
then recompute `d` and the normal from the rotated provenance where possible:
`PointNormal` rotates the point and recomputes `d` from it and the offset,
keeping the plane normal; `ThreePoints` rotates all three points and
re-derives normal and `d` from them; `LineAngle` rotates point and direction
and re-derives the frame (with a fresh up-vector selection), normal and `d`;
standard/unknown provenance keeps `d` and normal.  The in-plane rotation
bookkeeping accumulates. -/
noncomputable def TopoPlane.rotate_around_normal
    (p : TopoPlane) (angle : ℝ) (center : Option (Vec3 ℝ)) : TopoPlane :=
  let axis := p.normal.normalize
  let c := center.getD
    (match p.origin with
     | TopoPlaneOrigin.PointNormal point _ _ => point
     | _ => (⟨0, 0, 0⟩ : Vec3 ℝ) - p.d • p.normal)
  let new_origin :=
    match p.origin with
    | TopoPlaneOrigin.PointNormal point _ offset =>
        TopoPlaneOrigin.PointNormal (c + rotateVec axis angle (point - c))
          p.normal offset
    | TopoPlaneOrigin.ThreePoints a b c3 =>
        TopoPlaneOrigin.ThreePoints (c + rotateVec axis angle (a - c))
          (c + rotateVec axis angle (b - c)) (c + rotateVec axis angle (c3 - c))
    | TopoPlaneOrigin.LineAngle point direction orig_angle =>
        TopoPlaneOrigin.LineAngle (c + rotateVec axis angle (point - c))
          (rotateVec axis angle direction) orig_angle
    | other => other
  let recomputed :=
    match new_origin with
    | TopoPlaneOrigin.PointNormal point _ offset =>
        (-(p.normal.normalize.dot point) + offset.getD 0, p.normal)
    | TopoPlaneOrigin.ThreePoints a b c3 =>
        let n := ((b - a).cross (c3 - a)).normalize
        (-(n.dot a), n)
    | TopoPlaneOrigin.LineAngle point direction orig_angle =>
        let dir := direction.normalize
        let up : Vec3 ℝ := if |dir.x| < 0.9 then ⟨1, 0, 0⟩ else ⟨0, 1, 0⟩
        let perp := (dir.cross up).normalize
        let n := ((Real.cos orig_angle) • dir
          + (Real.sin orig_angle) • perp).normalize
        (-(n.dot point), n)
    | _ => (p.d, p.normal)
  { p with origin := new_origin, d := recomputed.1, normal := recomputed.2,
           rotation := p.rotation + angle }

/-! ## Topology entities
(`src/xrcad_lib/src/model/brep/topology/{vertex,edge,edge_loop,face}.rs`)

These carry plain `usize` indices; only vertex positions involve scalars, so
the structures are generic over the scalar type `α` (`f64`, instantiated at
`ℝ` for real-geometry claims and `ℚ` for decidable witnesses). -/

/-- Source `Vertex`: id + 3D position. -/
structure Vertex (α : Type) where
  id : ℕ
  position : Vec3 α
deriving DecidableEq

/-- Source `Edge`: id + ordered pair of vertex ids. -/
structure Edge where
  id : ℕ
  vertices : ℕ × ℕ
deriving DecidableEq

/-- Source `EdgeLoop`: id + sequence(s) of edge ids. -/
structure EdgeLoop where
  id : ℕ
  edges : List (List ℕ)
deriving DecidableEq

/-- Source `EdgeLoop::new`. -/
def EdgeLoop.new (id : ℕ) (edges : List (List ℕ)) : EdgeLoop :=
  { id := id, edges := edges }

/-- Source `Face`: id + list of edge-loop ids. -/
structure Face where
  id : ℕ
  edge_loops : List ℕ
deriving DecidableEq

/-! ## Primitive generators
(`src/xrcad_lib/src/model/primitives/{platonic,basic}.rs`) -/

/-- Source `PrimitiveResult` in `platonic.rs`. -/
structure PrimitiveResult (α : Type) where
  vertices : List (Vertex α)
  edges : List Edge
  edge_loops : List EdgeLoop
  faces : List Face
deriving DecidableEq

/-- Source `cube(size)` in `platonic.rs`: 8 vertices at `(±half, ±half, ±half)` with
`half = size/2`, 12 edges, 6 single-loop faces. -/
def cube {α : Type} [Field α] (size : α) : PrimitiveResult α :=
  let half := size / 2
  { vertices := [
      ⟨0, ⟨-half, -half, -half⟩⟩,
      ⟨1, ⟨ half, -half, -half⟩⟩,
      ⟨2, ⟨ half,  half, -half⟩⟩,
      ⟨3, ⟨-half,  half, -half⟩⟩,
      ⟨4, ⟨-half, -half,  half⟩⟩,
      ⟨5, ⟨ half, -half,  half⟩⟩,
      ⟨6, ⟨ half,  half,  half⟩⟩,
      ⟨7, ⟨-half,  half,  half⟩⟩],
    edges := [
      ⟨0, (0, 1)⟩, ⟨1, (1, 2)⟩, ⟨2, (2, 3)⟩, ⟨3, (3, 0)⟩,
      ⟨4, (4, 5)⟩, ⟨5, (5, 6)⟩, ⟨6, (6, 7)⟩, ⟨7, (7, 4)⟩,
      ⟨8, (0, 4)⟩, ⟨9, (1, 5)⟩, ⟨10, (2, 6)⟩, ⟨11, (3, 7)⟩],
    edge_loops := [
      EdgeLoop.new 0 [[0, 1, 2, 3]],
      EdgeLoop.new 1 [[4, 5, 6, 7]],
      EdgeLoop.new 2 [[0, 9, 4, 8]],
      EdgeLoop.new 3 [[2, 11, 6, 10]],
      EdgeLoop.new 4 [[3, 11, 7, 8]],
      EdgeLoop.new 5 [[1, 10, 5, 9]]],
    faces := [
      ⟨0, [0]⟩, ⟨1, [1]⟩, ⟨2, [2]⟩, ⟨3, [3]⟩, ⟨4, [4]⟩, ⟨5, [5]⟩] }

/-- Source `cylinder(radius, height, segments)` in `basic.rs`.  The scalar functions
`fcos`/`fsin` and the constant `pi` model `f64::cos`, `f64::sin` and
`std::f64::consts::PI` (over `ℝ`: `Real.cos`, `Real.sin`, `Real.pi`); the
claims this settles do not depend on them.  Fails (`None`) iff
`segments < 3`.  Vertices are pushed bottom/top interleaved per segment, then
the two cap centers; edge ids run bottom circle, top circle, vertical,
bottom radial, top radial; loops/faces run bottom caps, top caps, sides. -/
def cylinder {α : Type} [Field α] (pi : α) (fcos fsin : α → α)
    (radius height : α) (segments : ℕ) : Option (PrimitiveResult α) :=
  if segments < 3 then
    none
  else
    let half_height := height / 2
    let rim := (List.range segments).flatMap (fun (i : ℕ) =>
      let angle := 2 * pi * (i : α) / (segments : α)
      let x := radius * fcos angle
      let y := radius * fsin angle
      [(⟨i, ⟨x, y, -half_height⟩⟩ : Vertex α),
       (⟨i + segments, ⟨x, y, half_height⟩⟩ : Vertex α)])
    let vertices := rim ++ [
      (⟨segments * 2, ⟨0, 0, -half_height⟩⟩ : Vertex α),
      (⟨segments * 2 + 1, ⟨0, 0, half_height⟩⟩ : Vertex α)]
    let bottom_circle := (List.range segments).map (fun (i : ℕ) =>
      (⟨i, (i, (i + 1) % segments)⟩ : Edge))
    let top_circle := (List.range segments).map (fun (i : ℕ) =>
      (⟨segments + i, (i + segments, (i + 1) % segments + segments)⟩ : Edge))
    let vertical := (List.range segments).map (fun (i : ℕ) =>
      (⟨2 * segments + i, (i, i + segments)⟩ : Edge))
    let radial_bottom := (List.range segments).map (fun (i : ℕ) =>
      (⟨3 * segments + i, (segments * 2, i)⟩ : Edge))
    let radial_top := (List.range segments).map (fun (i : ℕ) =>
      (⟨4 * segments + i, (segments * 2 + 1, i + segments)⟩ : Edge))
    let bottom_loops := (List.range segments).map (fun (i : ℕ) =>
      EdgeLoop.new i [[i, segments * 3 + i, segments * 3 + (i + segments - 1) % segments]])
    let bottom_faces := (List.range segments).map (fun (i : ℕ) => (⟨i, [i]⟩ : Face))
    let top_loops := (List.range segments).map (fun (i : ℕ) =>
      EdgeLoop.new (segments + i)
        [[segments + i, segments * 4 + i, segments * 4 + (i + segments - 1) % segments]])
    let top_faces := (List.range segments).map (fun (i : ℕ) =>
      (⟨segments + i, [segments + i]⟩ : Face))
    let side_loops := (List.range segments).map (fun (i : ℕ) =>
      EdgeLoop.new (segments * 2 + i)
        [[i, segments * 2 + (i + 1) % segments, segments + i, segments * 2 + i]])
    let side_faces := (List.range segments).map (fun (i : ℕ) =>
      (⟨segments * 2 + i, [segments * 2 + i]⟩ : Face))
    some { vertices := vertices,
           edges := bottom_circle ++ top_circle ++ vertical ++ radial_bottom ++ radial_top,
           edge_loops := bottom_loops ++ top_loops ++ side_loops,
           faces := bottom_faces ++ top_faces ++ side_faces }

/-- Source `cone(base_radius, height, segments)` in `basic.rs`.  Fails (`None`) iff
`segments < 3`.  Vertices: rim, base center (`id = segments`), apex
(`id = segments + 1`); edges: base circle, radial, rim-to-apex; loops/faces:
base triangles then side triangles. -/
def cone {α : Type} [Field α] (pi : α) (fcos fsin : α → α)
    (base_radius height : α) (segments : ℕ) : Option (PrimitiveResult α) :=
  if segments < 3 then
    none
  else
    let rim := (List.range segments).map (fun (i : ℕ) =>
      let angle := 2 * pi * (i : α) / (segments : α)
      (⟨i, ⟨base_radius * fcos angle, base_radius * fsin angle, 0⟩⟩ : Vertex α))
    let vertices := rim ++ [
      (⟨segments, ⟨0, 0, 0⟩⟩ : Vertex α),
      (⟨segments + 1, ⟨0, 0, height⟩⟩ : Vertex α)]
    let base_circle := (List.range segments).map (fun (i : ℕ) =>
      (⟨i, (i, (i + 1) % segments)⟩ : Edge))
    let radial := (List.range segments).map (fun (i : ℕ) =>
      (⟨segments + i, (segments, i)⟩ : Edge))
    let to_apex := (List.range segments).map (fun (i : ℕ) =>
      (⟨segments * 2 + i, (i, segments + 1)⟩ : Edge))
    let base_loops := (List.range segments).map (fun (i : ℕ) =>
      EdgeLoop.new i [[i, segments + i, segments + (i + segments - 1) % segments]])
    let base_faces := (List.range segments).map (fun (i : ℕ) => (⟨i, [i]⟩ : Face))
    let side_loops := (List.range segments).map (fun (i : ℕ) =>
      EdgeLoop.new (segments + i)
        [[i, segments * 2 + (i + 1) % segments, segments * 2 + i]])
    let side_faces := (List.range segments).map (fun (i : ℕ) =>
      (⟨segments + i, [segments + i]⟩ : Face))
    some { vertices := vertices,
           edges := base_circle ++ radial ++ to_apex,
           edge_loops := base_loops ++ side_loops,
           faces := base_faces ++ side_faces }

/-! ## Material (`src/xrcad_lib/src/model/material.rs`) -/

/-- Source `Material`: physical, visual and manufacturing parameters.  `f64`/`f32`
scalars are modelled uniformly over `α`. -/
structure Material (α : Type) where
  name : String
  density : α
  hardness : α
  youngs_modulus : Option α
  poissons_ratio : Option α
  thermal_conductivity : Option α
  base_color : α × α × α
  alpha : α
  metallic : α
  roughness : α
  reflectance : α
  diffuse_texture : Option String
  normal_texture : Option String
  roughness_texture : Option String
  metallic_texture : Option String
  cost_per_volume : Option α
  machinability : Option α
  weldability : Option α
deriving DecidableEq

/-- Source `Material::calculate_mass`: `density × volume`. -/
def Material.calculate_mass {α : Type} [Mul α] (m : Material α) (volume_m3 : α) : α :=
  m.density * volume_m3

/-- Source `Material::calculate_cost`: `cost_per_volume × volume` when a cost rating
exists. -/
def Material.calculate_cost {α : Type} [Mul α] (m : Material α) (volume_m3 : α) : Option α :=
  m.cost_per_volume.map (fun cost_per_m3 => cost_per_m3 * volume_m3)

/-! ## Body properties (`src/xrcad_lib/src/model/body_properties.rs`) -/

/-- Source `BodyProperties`: material plus independently cached scalars and
non-geometric attributes. -/
structure BodyProperties (α : Type) where
  body_id : ℕ
  material : Material α
  volume : Option α
  surface_area : Option α
  mass : Option α
  center_of_mass : Option (α × α × α)
  name : Option String
  visible : Bool
  selected : Bool
  layer : Option String
deriving DecidableEq

/-- Source `BodyProperties::new_with_material`: all caches empty. -/
def BodyProperties.new_with_material {α : Type} (body_id : ℕ) (material : Material α) :
    BodyProperties α :=
  { body_id := body_id, material := material, volume := none,
    surface_area := none, mass := none, center_of_mass := none,
    name := none, visible := true, selected := false, layer := none }

/-- Source `BodyProperties::set_volume`: cache the volume and immediately recompute
the mass as `density × volume`. -/
def BodyProperties.set_volume {α : Type} [Mul α] (p : BodyProperties α) (volume : α) :
    BodyProperties α :=
  { p with volume := some volume,
           mass := some (p.material.calculate_mass volume) }

/-- Source `BodyProperties::set_material`: replace the material and invalidate all
cached scalars. -/
def BodyProperties.set_material {α : Type} (p : BodyProperties α) (material : Material α) :
    BodyProperties α :=
  { p with material := material, volume := none, surface_area := none,
           mass := none, center_of_mass := none }

/-- Source `BodyProperties::calculate_mass`: read accessor over the cached volume. -/
def BodyProperties.calculate_mass {α : Type} [Mul α] (p : BodyProperties α) : Option α :=
  p.volume.map (fun vol => p.material.calculate_mass vol)

/-- Source `BodyProperties::estimated_cost`: read accessor over the cached volume and
the material's cost rating. -/
def BodyProperties.estimated_cost {α : Type} [Mul α] (p : BodyProperties α) : Option α :=
  p.volume.bind (fun vol => p.material.calculate_cost vol)

/-! ## Spec-side predicates

These formalize the claim language ("closed cycle of edge ids") and are not
translations of source code. -/

/-- Resolve an edge id against an edge list (ids as produced by the
generators): the vertex pair of the first edge carrying that id. -/
def findEdge (es : List Edge) (eid : ℕ) : Option (ℕ × ℕ) :=
  (es.find? (fun e => e.id == eid)).map Edge.vertices

/-- Walk the remaining edge ids of a loop: each edge must touch the current
vertex with one endpoint; the walk succeeds if it ends back at `start`. -/
def traceLoop (es : List Edge) : List ℕ → ℕ → ℕ → Bool
  | [], start, cur => cur == start
  | eid :: rest, start, cur =>
    match findEdge es eid with
    | none => false
    | some (a, b) =>
      if a == cur then traceLoop es rest start b
      else if b == cur then traceLoop es rest start a
      else false

/-- A nonempty edge-id list is a closed cycle when, traversing the first edge
in either direction, the undirected vertex chain returns to its starting
vertex. -/
def isClosedCycle (es : List Edge) (ids : List ℕ) : Bool :=
  match ids with
  | [] => false
  | eid :: rest =>
    match findEdge es eid with
    | none => false
    | some (a, b) => traceLoop es rest a b || traceLoop es rest b a

/-- A concrete steel-like material over `ℚ` (density 7850), used to evaluate
the body-properties claims on concrete input. -/
def steelExample : Material ℚ :=
  { name := "Steel", density := 7850, hardness := 6,
    youngs_modulus := none, poissons_ratio := none,
    thermal_conductivity := none, base_color := (1/2, 1/2, 1/2),
    alpha := 1, metallic := 1, roughness := 1/5, reflectance := 1/25,
    diffuse_texture := none, normal_texture := none,
    roughness_texture := none, metallic_texture := none,
    cost_per_volume := none, machinability := none, weldability := none }

/-! # Theorems settling the claims -/

/-- Auxiliary: `compute_boundary_edges` never changes the `is_closed` flag or
the face list. -/
theorem Shell.compute_boundary_edges_preserves (t : Shell) (m : List (ℕ × List ℕ)) :
    (t.compute_boundary_edges m).is_closed = t.is_closed ∧
    (t.compute_boundary_edges m).faces = t.faces := by
  unfold Shell.compute_boundary_edges
  split <;> exact ⟨rfl, rfl⟩

/-- C1 (amended): after `Shell::compute_properties`, the shell is closed iff
no edge of the adjacency map has member-face count exactly 1 (edges with
member-face count 0, 2 or ≥ 3 never open the shell); when open, the cached
boundary-edge list consists exactly of the edges with member-face count 1,
and when closed the boundary cache is `none`. -/
theorem compute_properties_closure (s : Shell) (m : List (ℕ × List ℕ)) :
    ((s.compute_properties m).is_closed = true ↔
      ∀ p ∈ m, (s.facesInShell p.2).length ≠ 1) ∧
    ((s.compute_properties m).is_closed = false →
      (s.compute_properties m).boundary_edges =
        some ((m.filter (fun p => (s.facesInShell p.2).length == 1)).map Prod.fst) ∧
      ∀ e, e ∈ (m.filter (fun p => (s.facesInShell p.2).length == 1)).map Prod.fst ↔
        ∃ frs, (e, frs) ∈ m ∧ (s.facesInShell frs).length = 1) ∧
    ((s.compute_properties m).is_closed = true →
      (s.compute_properties m).boundary_edges = none) := by
  have hclosed : (s.compute_properties m).is_closed =
      ! m.any (fun p => (s.facesInShell p.2).length == 1) :=
    (Shell.compute_boundary_edges_preserves _ m).1
  have hfaces1 : (s.compute_closure m).facesInShell = s.facesInShell := rfl
  refine ⟨?_, ?_, ?_⟩
  · rw [hclosed]
    simp [List.any_eq_true]
  · intro hopen
    rw [hclosed] at hopen
    have hany : m.any (fun p => (s.facesInShell p.2).length == 1) = true := by
      simpa using hopen
    have hcl : (s.compute_closure m).is_closed = false := by
      simp [Shell.compute_closure, hany]
    constructor
    · show ((s.compute_closure m).compute_boundary_edges m).boundary_edges = _
      rw [Shell.compute_boundary_edges, hcl]
      simp [hfaces1]
    · intro e
      simp only [List.mem_map, List.mem_filter]
      constructor
      · rintro ⟨p, ⟨hpm, hp1⟩, rfl⟩
        exact ⟨p.2, hpm, by simpa using hp1⟩
      · rintro ⟨frs, hmem, hlen⟩
        exact ⟨(e, frs), ⟨hmem, by simpa using hlen⟩, rfl⟩
  · intro hcl
    rw [hclosed] at hcl
    have hany : m.any (fun p => (s.facesInShell p.2).length == 1) = false := by
      simpa using hcl
    have hcl1 : (s.compute_closure m).is_closed = true := by
      simp [Shell.compute_closure, hany]
    show ((s.compute_closure m).compute_boundary_edges m).boundary_edges = none
    rw [Shell.compute_boundary_edges, hcl1]
    simp

/-- C1 witness: on a shell `{0, 1}` with one boundary edge (edge 4 touching
only face 0) and one interior edge (edge 9 touching faces 0 and 1), the
computed shell is open and its boundary cache is populated. -/
theorem compute_properties_closure_witness :
    ((Shell.new 1 [0, 1] ShellOrientation.Outward).compute_properties
        [(4, [0]), (9, [0, 1])]).is_closed = false ∧
    ((Shell.new 1 [0, 1] ShellOrientation.Outward).compute_properties
        [(4, [0]), (9, [0, 1])]).boundary_edges = some [4] := by
  have h := compute_properties_closure (Shell.new 1 [0, 1] ShellOrientation.Outward)
    [(4, [0]), (9, [0, 1])]
  have hopen : ((Shell.new 1 [0, 1] ShellOrientation.Outward).compute_properties
      [(4, [0]), (9, [0, 1])]).is_closed = false := by
    rcases Bool.eq_false_or_eq_true ((Shell.new 1 [0, 1]
        ShellOrientation.Outward).compute_properties [(4, [0]), (9, [0, 1])]).is_closed with
      ht | hf
    · exfalso
      have := h.1.mp ht (4, [0]) (by decide)
      exact this (by decide)
    · exact hf
  refine ⟨hopen, ?_⟩
  have hb := (h.2.1 hopen).1
  rw [hb]
  decide

/-- C1 counterexample: a non-manifold edge (id 5) is adjacent to three member
faces of the shell — it touches at least one member face and is not shared by
exactly two — yet `compute_properties` reports the shell closed.  The claim's
"closed iff every touched edge has member-face count exactly 2" is therefore
false on the code; only count 1 opens a shell. -/
theorem compute_closure_nonmanifold_counterexample :
    ((Shell.new 0 [0, 1, 2] ShellOrientation.Outward).compute_properties
        [(5, [0, 1, 2])]).is_closed = true ∧
    ((Shell.new 0 [0, 1, 2] ShellOrientation.Outward).facesInShell [0, 1, 2]).length = 3 := by
  decide

/-- C10: a fresh `Shell::new` reports `is_closed = false` whatever its face
list; `add_face` and `remove_face` leave `is_closed` untouched and only clear
the cached boundary-edge list (`remove_face` only when it actually removes);
so the closure flag persists, stale, until `compute_properties` is invoked. -/
theorem shell_mutation_frame (id : ℕ) (faces : List ℕ) (o : ShellOrientation)
    (s : Shell) (f : ℕ) :
    (Shell.new id faces o).is_closed = false ∧
    (s.add_face f).is_closed = s.is_closed ∧
    (s.add_face f).faces = s.faces ++ [f] ∧
    (s.add_face f).boundary_edges = none ∧
    ((s.remove_face f).1).is_closed = s.is_closed ∧
    (s.faces.contains f = true → ((s.remove_face f).1).boundary_edges = none) ∧
    (s.faces.contains f = false → (s.remove_face f).1 = s) := by
  refine ⟨rfl, rfl, rfl, rfl, ?_, ?_, ?_⟩
  · by_cases hm : f ∈ s.faces <;>
      simp [Shell.remove_face, hm, Shell.invalidate_cache]
  · intro h
    have hm : f ∈ s.faces := by simpa using h
    simp [Shell.remove_face, hm, Shell.invalidate_cache]
  · intro h
    have hm : f ∉ s.faces := by simpa using h
    simp [Shell.remove_face, hm]

/-- C10 witness: concrete shell with a stale `is_closed` flag: mutations keep
the flag, only `compute_properties` would change it. -/
theorem shell_mutation_frame_witness :
    ((Shell.mk 3 [0, 1] true ShellOrientation.Outward (some [7])).add_face 2).is_closed
      = true ∧
    (((Shell.mk 3 [0, 1] true ShellOrientation.Outward (some [7])).remove_face 9).1)
      = Shell.mk 3 [0, 1] true ShellOrientation.Outward (some [7]) := by
  have h := shell_mutation_frame 3 [0, 1] ShellOrientation.Outward
    (Shell.mk 3 [0, 1] true ShellOrientation.Outward (some [7])) 2
  have h9 := shell_mutation_frame 3 [0, 1] ShellOrientation.Outward
    (Shell.mk 3 [0, 1] true ShellOrientation.Outward (some [7])) 9
  exact ⟨h.2.1, h9.2.2.2.2.2.2 (by decide)⟩

/-- C9: `new_solid`/`new_hollow` pre-cache the classification, and
`body_type` returns the cached value without consulting the shell table (for
every table, even one missing the referenced shells); `add_inner_shell`
always clears the cache, `remove_inner_shell` clears it whenever it removes
something. -/
theorem body_type_precached (id os : ℕ) (inner : List ℕ)
    (shells shells2 : List (ℕ × Shell)) (b : Body) (r : ℕ) :
    (Body.new_solid id os).body_type shells = BodyType.Solid ∧
    (Body.new_hollow id os inner).body_type shells2 = BodyType.Hollow ∧
    (b.add_inner_shell r).cached_body_type = none ∧
    (b.inner_shells.contains r = true →
      ((b.remove_inner_shell r).1).cached_body_type = none) := by
  refine ⟨rfl, rfl, rfl, ?_⟩
  intro h
  have hm : r ∈ b.inner_shells := by simpa using h
  simp [Body.remove_inner_shell, hm, Body.invalidate_cache]

/-- C9 witness: an empty shell table (the outer shells do not even exist),
yet the pre-cached classifications are returned; a mutation clears the
cache. -/
theorem body_type_precached_witness :
    (Body.new_solid 1 2).body_type [] = BodyType.Solid ∧
    (Body.new_hollow 3 4 [5]).body_type [] = BodyType.Hollow ∧
    ((Body.mk 0 9 [7] (some BodyType.Solid)).remove_inner_shell 7).1.cached_body_type
      = none := by
  have h := body_type_precached 1 2 [5] [] [] (Body.mk 0 9 [7] (some BodyType.Solid)) 7
  have h2 := body_type_precached 3 4 [5] [] [] (Body.mk 0 9 [7] (some BodyType.Solid)) 7
  exact ⟨h.1, h2.2.1, h.2.2.2 (by decide)⟩

/-- C2: with no cached classification and the outer shell present in the
table, `Body::body_type` classifies Solid/Open/Hollow/Compound exactly as the
spec's rule states; and the Solid → (add open inner) Compound → (remove)
Solid scenario holds. -/
theorem body_type_classification
    (b : Body) (shells : List (ℕ × Shell)) (os : Shell)
    (hcache : b.cached_body_type = none)
    (houter : shells.lookup b.outer_shell = some os) :
    (b.inner_shells = [] → os.is_closed = true →
      b.body_type shells = BodyType.Solid) ∧
    (b.inner_shells = [] → os.is_closed = false →
      b.body_type shells = BodyType.Open) ∧
    (b.inner_shells ≠ [] → os.is_closed = true →
      (∀ r ∈ b.inner_shells, ∃ sh, shells.lookup r = some sh ∧ sh.is_closed = true) →
      b.body_type shells = BodyType.Hollow) ∧
    (b.inner_shells ≠ [] → os.is_closed = true →
      ¬(∀ r ∈ b.inner_shells, ∃ sh, shells.lookup r = some sh ∧ sh.is_closed = true) →
      b.body_type shells = BodyType.Compound) ∧
    (b.inner_shells ≠ [] → os.is_closed = false →
      b.body_type shells = BodyType.Compound) ∧
    (∀ (bid oid iid : ℕ) (co ci : Shell),
      shells.lookup oid = some co → co.is_closed = true →
      shells.lookup iid = some ci → ci.is_closed = false →
      (Body.new bid oid).body_type shells = BodyType.Solid ∧
      ((Body.new bid oid).add_inner_shell iid).body_type shells = BodyType.Compound ∧
      (((Body.new bid oid).add_inner_shell iid).remove_inner_shell iid).1.body_type
        shells = BodyType.Solid) := by
  refine ⟨?_, ?_, ?_, ?_, ?_, ?_⟩
  · intro h1 h2
    simp [Body.body_type, hcache, houter, h1, h2]
  · intro h1 h2
    simp [Body.body_type, hcache, houter, h1, h2]
  · intro h1 h2 hall
    have hne : ¬ b.inner_shells.isEmpty := by
      simpa [List.isEmpty_iff] using h1
    have hall2 : b.inner_shells.all
        (fun r => ((shells.lookup r).map Shell.is_closed).getD false) = true := by
      rw [List.all_eq_true]
      intro r hr
      obtain ⟨sh, hsh, hc⟩ := hall r hr
      simp [hsh, hc]
    simp [Body.body_type, hcache, houter, hne, h2, hall2]
  · intro h1 h2 hnall
    have hne : ¬ b.inner_shells.isEmpty := by
      simpa [List.isEmpty_iff] using h1
    have hall2 : b.inner_shells.all
        (fun r => ((shells.lookup r).map Shell.is_closed).getD false) = false := by
      rcases Bool.eq_false_or_eq_true (b.inner_shells.all
          (fun r => ((shells.lookup r).map Shell.is_closed).getD false)) with ht | hf
      · exfalso
        apply hnall
        intro r hr
        have hgd := List.all_eq_true.mp ht r hr
        cases hlk : shells.lookup r with
        | none => exact absurd hgd (by simp [hlk])
        | some sh =>
          rw [hlk] at hgd
          exact ⟨sh, rfl, by simpa using hgd⟩
      · exact hf
    simp [Body.body_type, hcache, houter, hne, h2, hall2]
  · intro h1 h2
    have hne : ¬ b.inner_shells.isEmpty := by
      simpa [List.isEmpty_iff] using h1
    simp [Body.body_type, hcache, houter, hne, h2]
  · intro bid oid iid co ci hco hcoc hci hcic
    refine ⟨?_, ?_, ?_⟩
    · simp [Body.new, Body.body_type, hco, hcoc]
    · simp [Body.new, Body.add_inner_shell, Body.invalidate_cache, Body.body_type,
        hco, hcoc, hci, hcic]
    · simp [Body.new, Body.add_inner_shell, Body.invalidate_cache,
        Body.remove_inner_shell, Body.body_type, hco, hcoc]

/-- C2 witness: a two-shell table (closed outer shell 1, open shell 2); the
body classifies Solid, then Compound after adding the open cavity, then Solid
again after removing it. -/
theorem body_type_classification_witness :
    (Body.new 0 1).body_type
      [(1, Shell.mk 1 [0] true ShellOrientation.Outward none),
       (2, Shell.mk 2 [1] false ShellOrientation.Inward none)] = BodyType.Solid ∧
    ((Body.new 0 1).add_inner_shell 2).body_type
      [(1, Shell.mk 1 [0] true ShellOrientation.Outward none),
       (2, Shell.mk 2 [1] false ShellOrientation.Inward none)] = BodyType.Compound ∧
    (((Body.new 0 1).add_inner_shell 2).remove_inner_shell 2).1.body_type
      [(1, Shell.mk 1 [0] true ShellOrientation.Outward none),
       (2, Shell.mk 2 [1] false ShellOrientation.Inward none)] = BodyType.Solid := by
  have h := body_type_classification (Body.new 0 1)
    [(1, Shell.mk 1 [0] true ShellOrientation.Outward none),
     (2, Shell.mk 2 [1] false ShellOrientation.Inward none)]
    (Shell.mk 1 [0] true ShellOrientation.Outward none) rfl (by decide)
  exact h.2.2.2.2.2 0 1 2 (Shell.mk 1 [0] true ShellOrientation.Outward none)
    (Shell.mk 2 [1] false ShellOrientation.Inward none)
    (by decide) rfl (by decide) rfl

/-- C5: `set_volume` immediately pushes `mass := density × volume`, and the
read accessors `calculate_mass`/`estimated_cost` return `none` (unavailable,
not zero) whenever the volume cache is unset. -/
theorem body_properties_mass_cost {α : Type} [Field α]
    (p : BodyProperties α) (v : α) :
    (p.set_volume v).mass = some (p.material.density * v) ∧
    (p.volume = none → p.calculate_mass = none ∧ p.estimated_cost = none) := by
  refine ⟨rfl, ?_⟩
  intro h
  simp [BodyProperties.calculate_mass, BodyProperties.estimated_cost, h]

/-- C5 witness: fresh properties with the steel material (density 7850):
`calculate_mass`/`estimated_cost` are unavailable before any `set_volume`;
`set_volume 0.001` makes `mass()` report `7.85`. -/
theorem body_properties_mass_cost_witness :
    ((BodyProperties.new_with_material 1 steelExample).set_volume (1/1000)).mass
      = some (7.85 : ℚ) ∧
    (BodyProperties.new_with_material 1 steelExample).calculate_mass = none ∧
    (BodyProperties.new_with_material 1 steelExample).estimated_cost = none := by
  have h := body_properties_mass_cost
    (BodyProperties.new_with_material 1 steelExample) ((1 : ℚ)/1000)
  refine ⟨?_, (h.2 rfl).1, (h.2 rfl).2⟩
  rw [h.1]
  norm_num [steelExample, BodyProperties.new_with_material, Material.calculate_mass]

/-- C4: the parametric generators reject a segment count below 3 with a
failure outcome (`None`) and succeed otherwise — no silent clamping; a
successful cylinder has exactly `2·segments + 2` vertices. -/
theorem cylinder_cone_segment_guard {α : Type} [Field α] (pi : α)
    (fcos fsin : α → α) (r h : α) (s : ℕ) :
    (cylinder pi fcos fsin r h s = none ↔ s < 3) ∧
    (cone pi fcos fsin r h s = none ↔ s < 3) ∧
    (3 ≤ s → ∃ res, cylinder pi fcos fsin r h s = some res ∧
      res.vertices.length = 2 * s + 2) := by
  refine ⟨?_, ?_, ?_⟩
  · by_cases hs : s < 3 <;> simp [cylinder, hs]
  · by_cases hs : s < 3 <;> simp [cone, hs]
  · intro hs
    have hs3 : ¬ s < 3 := not_lt.mpr hs
    unfold cylinder
    rw [if_neg hs3]
    refine ⟨_, rfl, ?_⟩
    simp only [List.length_append, List.length_flatMap]
    have hrep : ∀ (g : ℕ → List (Vertex α)), (∀ i, (g i).length = 2) →
        (List.map (List.length ∘ g) (List.range s)).sum = 2 * s := by
      intro g hg
      have : List.map (List.length ∘ g) (List.range s) = List.replicate s 2 := by
        rw [List.eq_replicate_iff]
        simp [hg]
      rw [this]
      simp [List.sum_replicate, Nat.mul_comm]
    rw [hrep (fun i =>
      let angle := 2 * pi * (i : α) / (s : α)
      [(⟨i, ⟨r * fcos angle, r * fsin angle, -(h / 2)⟩⟩ : Vertex α),
       (⟨i + s, ⟨r * fcos angle, r * fsin angle, h / 2⟩⟩ : Vertex α)])
      (fun i => rfl)]
    rfl

/-- C4 witness: over `ℚ` (with placeholder trigonometric functions, which the
vertex count does not depend on), segment counts 0 and 2 fail for both
generators while 8 succeeds with 18 vertices. -/
theorem cylinder_cone_segment_guard_witness :
    cylinder (0 : ℚ) id id 10 20 2 = none ∧
    cylinder (0 : ℚ) id id 10 20 0 = none ∧
    cone (0 : ℚ) id id 10 20 2 = none ∧
    (cylinder (0 : ℚ) id id 10 20 8).map (fun res => res.vertices.length)
      = some 18 := by
  refine ⟨(cylinder_cone_segment_guard (0 : ℚ) id id 10 20 2).1.mpr (by norm_num),
    (cylinder_cone_segment_guard (0 : ℚ) id id 10 20 0).1.mpr (by norm_num),
    (cylinder_cone_segment_guard (0 : ℚ) id id 10 20 2).2.1.mpr (by norm_num), ?_⟩
  obtain ⟨res, hres, hlen⟩ :=
    (cylinder_cone_segment_guard (0 : ℚ) id id 10 20 8).2.2 (by norm_num)
  rw [hres]
  simp [hlen]

/-- C6: `cube(size)` yields 8 vertices at `(±size/2, ±size/2, ±size/2)`,
12 edges with both vertex ids in `[0, 8)`, 6 edge-loops and 6 faces, each
face referencing exactly one loop, each loop a single chain of exactly 4 edge
ids whose undirected vertex walk closes. -/
theorem cube_topology {α : Type} [Field α] (size : α) :
    (cube size).vertices.length = 8 ∧
    (cube size).vertices.map (fun v => v.position) =
      [⟨-(size/2), -(size/2), -(size/2)⟩, ⟨size/2, -(size/2), -(size/2)⟩,
       ⟨size/2, size/2, -(size/2)⟩, ⟨-(size/2), size/2, -(size/2)⟩,
       ⟨-(size/2), -(size/2), size/2⟩, ⟨size/2, -(size/2), size/2⟩,
       ⟨size/2, size/2, size/2⟩, ⟨-(size/2), size/2, size/2⟩] ∧
    (cube size).edges.length = 12 ∧
    (∀ e ∈ (cube size).edges, e.vertices.1 < 8 ∧ e.vertices.2 < 8) ∧
    (cube size).edge_loops.length = 6 ∧
    (cube size).faces.length = 6 ∧
    (∀ f ∈ (cube size).faces, f.edge_loops.length = 1) ∧
    (∀ l ∈ (cube size).edge_loops, l.edges.length = 1 ∧
      ∀ c ∈ l.edges, c.length = 4 ∧ isClosedCycle (cube size).edges c = true) := by
  have he : (cube size).edges =
      [⟨0, (0, 1)⟩, ⟨1, (1, 2)⟩, ⟨2, (2, 3)⟩, ⟨3, (3, 0)⟩,
       ⟨4, (4, 5)⟩, ⟨5, (5, 6)⟩, ⟨6, (6, 7)⟩, ⟨7, (7, 4)⟩,
       ⟨8, (0, 4)⟩, ⟨9, (1, 5)⟩, ⟨10, (2, 6)⟩, ⟨11, (3, 7)⟩] := rfl
  have hl : (cube size).edge_loops =
      [EdgeLoop.new 0 [[0, 1, 2, 3]], EdgeLoop.new 1 [[4, 5, 6, 7]],
       EdgeLoop.new 2 [[0, 9, 4, 8]], EdgeLoop.new 3 [[2, 11, 6, 10]],
       EdgeLoop.new 4 [[3, 11, 7, 8]], EdgeLoop.new 5 [[1, 10, 5, 9]]] := rfl
  have hf : (cube size).faces =
      [⟨0, [0]⟩, ⟨1, [1]⟩, ⟨2, [2]⟩, ⟨3, [3]⟩, ⟨4, [4]⟩, ⟨5, [5]⟩] := rfl
  refine ⟨rfl, rfl, rfl, ?_, rfl, rfl, ?_, ?_⟩
  · rw [he]
    decide
  · rw [hf]
    decide
  · rw [hl, he]
    decide

/-- C6 witness: the cube of size 200 over `ℚ`, evaluated concretely. -/
theorem cube_topology_witness :
    (cube (200 : ℚ)).vertices.length = 8 ∧
    (cube (200 : ℚ)).edges.length = 12 ∧
    (cube (200 : ℚ)).edge_loops.length = 6 ∧
    (cube (200 : ℚ)).faces.length = 6 ∧
    (cube (200 : ℚ)).vertices.map (fun v => v.position) =
      [⟨-100, -100, -100⟩, ⟨100, -100, -100⟩, ⟨100, 100, -100⟩, ⟨-100, 100, -100⟩,
       ⟨-100, -100, 100⟩, ⟨100, -100, 100⟩, ⟨100, 100, 100⟩, ⟨-100, 100, 100⟩] := by
  have h := cube_topology (200 : ℚ)
  refine ⟨h.1, h.2.2.1, h.2.2.2.2.1, h.2.2.2.2.2.1, ?_⟩
  rw [h.2.1]
  norm_num

/-! ### Vector algebra lemmas used by the plane-geometry claims -/

/-- Componentwise unfolding of vector addition. -/
theorem Vec3.add_def {α : Type} [Add α] (u v : Vec3 α) :
    u + v = ⟨u.x + v.x, u.y + v.y, u.z + v.z⟩ := rfl

/-- Componentwise unfolding of vector subtraction. -/
theorem Vec3.sub_def {α : Type} [Sub α] (u v : Vec3 α) :
    u - v = ⟨u.x - v.x, u.y - v.y, u.z - v.z⟩ := rfl

/-- Componentwise unfolding of vector negation. -/
theorem Vec3.neg_def {α : Type} [Neg α] (v : Vec3 α) :
    -v = ⟨-v.x, -v.y, -v.z⟩ := rfl

/-- Componentwise unfolding of scalar multiplication. -/
theorem Vec3.smul_def {α : Type} [Mul α] (s : α) (v : Vec3 α) :
    s • v = ⟨s * v.x, s * v.y, s * v.z⟩ := rfl

/-- The squared norm is nonnegative. -/
theorem Vec3.normSq_nonneg (v : Vec3 ℝ) : 0 ≤ v.normSq :=
  add_nonneg (add_nonneg (mul_self_nonneg v.x) (mul_self_nonneg v.y))
    (mul_self_nonneg v.z)

/-- The norm squares back to the squared norm. -/
theorem Vec3.norm_mul_self (v : Vec3 ℝ) : v.norm * v.norm = v.normSq :=
  Real.mul_self_sqrt v.normSq_nonneg

/-- The norm vanishes exactly when the squared norm does. -/
theorem Vec3.norm_eq_zero_iff (v : Vec3 ℝ) : v.norm = 0 ↔ v.normSq = 0 := by
  unfold Vec3.norm
  rw [Real.sqrt_eq_zero v.normSq_nonneg]

/-- A vector that passes the `1e-10` degeneracy guard has nonzero squared
norm. -/
theorem Vec3.normSq_ne_zero_of_guard (v : Vec3 ℝ) (h : ¬ v.norm < 1e-10) :
    v.normSq ≠ 0 := by
  intro h0
  exact h (by rw [v.norm_eq_zero_iff.mpr h0]; norm_num)

/-- Normalizing a vector of nonzero squared norm yields squared norm 1. -/
theorem Vec3.normSq_normalize (v : Vec3 ℝ) (h : v.normSq ≠ 0) :
    v.normalize.normSq = 1 := by
  have hstep : v.normalize.normSq = (v.norm)⁻¹ * (v.norm)⁻¹ * (v.norm * v.norm) := by
    rw [v.norm_mul_self]
    simp only [Vec3.normalize, Vec3.smul_def, Vec3.normSq]
    ring
  have hn : v.norm ≠ 0 := fun h0 => h (v.norm_eq_zero_iff.mp h0)
  rw [hstep]
  field_simp

/-- Normalizing a vector of nonzero squared norm yields norm 1. -/
theorem Vec3.norm_normalize (v : Vec3 ℝ) (h : v.normSq ≠ 0) :
    v.normalize.norm = 1 := by
  unfold Vec3.norm
  rw [v.normSq_normalize h, Real.sqrt_one]

/-- A vector whose squared norm is already 1 is fixed by `normalize`. -/
theorem Vec3.normalize_of_normSq_one (v : Vec3 ℝ) (h : v.normSq = 1) :
    v.normalize = v := by
  unfold Vec3.normalize Vec3.norm
  rw [h, Real.sqrt_one, inv_one]
  cases v
  simp [Vec3.smul_def]

/-- Negation preserves the squared norm. -/
theorem Vec3.normSq_neg (v : Vec3 ℝ) : (-v).normSq = v.normSq := by
  simp only [Vec3.neg_def, Vec3.normSq]
  ring

/-- The zero vector has norm 0 (below every degeneracy threshold). -/
theorem Vec3.norm_zero_vec : (⟨0, 0, 0⟩ : Vec3 ℝ).norm = 0 := by
  rw [Vec3.norm_eq_zero_iff]
  simp [Vec3.normSq]

/-- C3 (amended): the `CorePlane` constructors report the degenerate outcome
(`None`) exactly when their defining vector has norm below `1e-10`
(`from_point_normal` on the normal, `from_line_angle` on the direction,
`from_points` on `(b-a)×(c-a)`), and on success `from_point_normal` carries a
unit normal `n/‖n‖` and `d = -(n/‖n‖)·point + offset`; the topology-module
`Plane::from_point_normal`, by contrast, applies the same formulas
unconditionally and never reports a failure. -/
theorem core_plane_degeneracy
    (point n : Vec3 ℝ) (off : Option ℝ) (a b c : Vec3 ℝ)
    (p2 dir : Vec3 ℝ) (angle : ℝ) :
    (CorePlane.from_point_normal point n off = none ↔ n.norm < 1e-10) ∧
    (CorePlane.from_line_angle p2 dir angle = none ↔ dir.norm < 1e-10) ∧
    (CorePlane.from_points a b c = none ↔ ((b - a).cross (c - a)).norm < 1e-10) ∧
    (¬ n.norm < 1e-10 →
      ∃ pl, CorePlane.from_point_normal point n off = some pl ∧
        pl.normal = n.normalize ∧ pl.normal.norm = 1 ∧
        pl.d = -(n.normalize.dot point) + off.getD 0) ∧
    ((TopoPlane.from_point_normal point n off).normal = n.normalize ∧
      (TopoPlane.from_point_normal point n off).d
        = -(n.normalize.dot point) + off.getD 0) := by
  refine ⟨?_, ?_, ?_, ?_, rfl, rfl⟩
  · by_cases h : n.norm < 1e-10 <;> simp [CorePlane.from_point_normal, h]
  · by_cases h : dir.norm < 1e-10 <;> simp [CorePlane.from_line_angle, h]
  · by_cases h : ((b - a).cross (c - a)).norm < 1e-10
    · have hzero : (construct_plane_from_points a b c).normal = ⟨0, 0, 0⟩ := by
        unfold construct_plane_from_points
        rw [if_pos h]
      have hnone : CorePlane.from_points a b c = none := by
        simp only [CorePlane.from_points, hzero, Vec3.norm_zero_vec]
        rw [if_pos (by norm_num)]
      simp [hnone, h]
    · have hnz := ((b - a).cross (c - a)).normSq_ne_zero_of_guard h
      have hone : (construct_plane_from_points a b c).normal.norm = 1 := by
        unfold construct_plane_from_points
        rw [if_neg h]
        exact ((b - a).cross (c - a)).norm_normalize hnz
      have hsome : CorePlane.from_points a b c ≠ none := by
        simp only [CorePlane.from_points, hone]
        rw [if_neg (by norm_num)]
        simp
      exact iff_of_false hsome h
  · intro h
    have hpl : CorePlane.from_point_normal point n off =
        some { normal := n.normalize,
               d := -(n.normalize.dot point) + off.getD 0,
               origin := point,
               construction_origin := PlaneOrigin.PointNormal point n off } := by
      unfold CorePlane.from_point_normal construct_plane_from_point_normal
      rw [if_neg h]
    exact ⟨_, hpl, rfl, n.norm_normalize (n.normSq_ne_zero_of_guard h), rfl⟩

/-- C3 witness: a unit normal passes the guard (plane constructed, unit
normal, `d = -n·p + offset`); collinear points are reported degenerate. -/
theorem core_plane_degeneracy_witness :
    (CorePlane.from_points ⟨0, 0, 0⟩ ⟨1, 0, 0⟩ ⟨2, 0, 0⟩ = none) ∧
    (CorePlane.from_point_normal ⟨0, 0, 0⟩ ⟨0, 0, 1⟩ (some 5) ≠ none) := by
  have h := core_plane_degeneracy (⟨0, 0, 0⟩ : Vec3 ℝ) ⟨0, 0, 1⟩ (some 5)
    ⟨0, 0, 0⟩ ⟨1, 0, 0⟩ ⟨2, 0, 0⟩ ⟨0, 0, 0⟩ ⟨0, 0, 0⟩ 0
  have hnorm1 : (⟨0, 0, 1⟩ : Vec3 ℝ).norm = 1 := by
    unfold Vec3.norm Vec3.normSq
    norm_num
  constructor
  · apply h.2.2.1.mpr
    have hcross : ((⟨1, 0, 0⟩ : Vec3 ℝ) - ⟨0, 0, 0⟩).cross
        ((⟨2, 0, 0⟩ : Vec3 ℝ) - ⟨0, 0, 0⟩) = ⟨0, 0, 0⟩ := by
      simp [Vec3.cross, Vec3.sub_def]
    rw [hcross, Vec3.norm_zero_vec]
    norm_num
  · obtain ⟨pl, hpl, _, _, _⟩ := h.2.2.2.1 (by rw [hnorm1]; norm_num)
    rw [hpl]
    simp

/-- C3 counterexample: the topology-module `Plane::from_point_normal`
(`brep/topology/plane.rs`), also named by the claim, returns an actual plane
— with silently-zeroed normal and `d` — on a zero normal vector, an input the
claim says must produce the failure outcome (`‖normal‖ = 0 < 1e-10`); it has
no failure outcome at all. -/
theorem topo_plane_no_degeneracy_counterexample :
    (TopoPlane.from_point_normal ⟨0, 0, 0⟩ ⟨0, 0, 0⟩ none).normal = ⟨0, 0, 0⟩ ∧
    (TopoPlane.from_point_normal ⟨0, 0, 0⟩ ⟨0, 0, 0⟩ none).d = 0 ∧
    (⟨0, 0, 0⟩ : Vec3 ℝ).norm < 1e-10 := by
  have hz : ((⟨0, 0, 0⟩ : Vec3 ℝ)).normalize = ⟨0, 0, 0⟩ := by
    unfold Vec3.normalize
    rw [Vec3.norm_zero_vec]
    simp [Vec3.smul_def]
  refine ⟨?_, ?_, ?_⟩
  · show (⟨0, 0, 0⟩ : Vec3 ℝ).normalize = ⟨0, 0, 0⟩
    exact hz
  · show -((⟨0, 0, 0⟩ : Vec3 ℝ).normalize.dot ⟨0, 0, 0⟩) + (none : Option ℝ).getD 0 = 0
    rw [hz]
    simp [Vec3.dot]
  · rw [Vec3.norm_zero_vec]
    norm_num

/-- Helper: the signed distance of a point `q` from the plane through `a`
with normal `normalize n`, rewritten over the unnormalized normal. -/
theorem distance_normalized (n a q : Vec3 ℝ) :
    n.normalize.dot q + (-(n.normalize.dot a) + (none : Option ℝ).getD 0)
      = (n.norm)⁻¹ * (n.dot q - n.dot a) := by
  simp only [Vec3.normalize, Vec3.smul_def, Vec3.dot, Option.getD]
  ring

/-- Helper: the cross product of the two edge vectors is orthogonal to the
edge towards `b`. -/
theorem cross_edge_b (a b c : Vec3 ℝ) :
    ((b - a).cross (c - a)).dot b - ((b - a).cross (c - a)).dot a = 0 := by
  simp only [Vec3.dot, Vec3.cross, Vec3.sub_def]
  ring

/-- Helper: the cross product of the two edge vectors is orthogonal to the
edge towards `c`. -/
theorem cross_edge_c (a b c : Vec3 ℝ) :
    ((b - a).cross (c - a)).dot c - ((b - a).cross (c - a)).dot a = 0 := by
  simp only [Vec3.dot, Vec3.cross, Vec3.sub_def]
  ring

/-- C7: for non-collinear points (cross-product norm at least `1e-10`),
`from_points` succeeds and all three defining points lie exactly on the
resulting plane (signed distance 0, hence within the claim's `1e-9`
tolerance). -/
theorem from_points_distance (a b c : Vec3 ℝ)
    (h : 1e-10 ≤ ((b - a).cross (c - a)).norm) :
    ∃ pl, CorePlane.from_points a b c = some pl ∧
      pl.distance a = 0 ∧ pl.distance b = 0 ∧ pl.distance c = 0 ∧
      |pl.distance a| ≤ 1e-9 ∧ |pl.distance b| ≤ 1e-9 ∧ |pl.distance c| ≤ 1e-9 := by
  have hng : ¬ ((b - a).cross (c - a)).norm < 1e-10 := not_lt.mpr h
  have hnz := ((b - a).cross (c - a)).normSq_ne_zero_of_guard hng
  have hres : construct_plane_from_points a b c =
      { normal := ((b - a).cross (c - a)).normalize, origin := a,
        d_coefficient := -(((b - a).cross (c - a)).normalize.dot a)
          + (none : Option ℝ).getD 0 } := by
    unfold construct_plane_from_points construct_plane_from_point_normal
    rw [if_neg hng]
  have hgu : ¬ ((b - a).cross (c - a)).normalize.norm < 1e-10 := by
    rw [((b - a).cross (c - a)).norm_normalize hnz]
    norm_num
  have hpl : CorePlane.from_points a b c =
      some { normal := ((b - a).cross (c - a)).normalize,
             d := -(((b - a).cross (c - a)).normalize.dot a)
               + (none : Option ℝ).getD 0,
             origin := a,
             construction_origin := PlaneOrigin.ThreePoints a b c } := by
    simp only [CorePlane.from_points, hres]
    rw [if_neg hgu]
  refine ⟨_, hpl, ?_, ?_, ?_, ?_, ?_, ?_⟩ <;>
    simp only [CorePlane.distance, distance_normalized] <;>
    [rw [sub_self, mul_zero]; rw [cross_edge_b, mul_zero];
     rw [cross_edge_c, mul_zero]; rw [sub_self, mul_zero];
     rw [cross_edge_b, mul_zero]; rw [cross_edge_c, mul_zero]] <;>
    norm_num

/-- C7 witness: the unit triangle `(0,0,0), (1,0,0), (0,1,0)` (cross product
`(0,0,1)`, norm 1): the constructed plane passes through all three points. -/
theorem from_points_distance_witness :
    (CorePlane.from_points ⟨0, 0, 0⟩ ⟨1, 0, 0⟩ ⟨0, 1, 0⟩).map
        (fun pl => (pl.distance ⟨0, 0, 0⟩, pl.distance ⟨1, 0, 0⟩,
          pl.distance ⟨0, 1, 0⟩))
      = some (0, 0, 0) := by
  have hcross : (((⟨1, 0, 0⟩ : Vec3 ℝ) - ⟨0, 0, 0⟩).cross
      ((⟨0, 1, 0⟩ : Vec3 ℝ) - ⟨0, 0, 0⟩)) = ⟨0, 0, 1⟩ := by
    simp [Vec3.cross, Vec3.sub_def]
  have hnorm : (((⟨1, 0, 0⟩ : Vec3 ℝ) - ⟨0, 0, 0⟩).cross
      ((⟨0, 1, 0⟩ : Vec3 ℝ) - ⟨0, 0, 0⟩)).norm = 1 := by
    rw [hcross]
    unfold Vec3.norm Vec3.normSq
    norm_num
  obtain ⟨pl, hpl, hda, hdb, hdc, _, _, _⟩ :=
    from_points_distance ⟨0, 0, 0⟩ ⟨1, 0, 0⟩ ⟨0, 1, 0⟩ (by rw [hnorm]; norm_num)
  rw [hpl]
  simp [hda, hdb, hdc]

/-- Helper: dotting with a unit rotation axis is invariant under the
Rodrigues rotation about that axis. -/
theorem Vec3.dot_rotateVec (k v : Vec3 ℝ) (θ : ℝ) (hk : k.normSq = 1) :
    k.dot (rotateVec k θ v) = k.dot v := by
  have hexp : k.dot (rotateVec k θ v)
      = Real.cos θ * k.dot v + (1 - Real.cos θ) * (k.dot v * k.normSq) := by
    simp only [rotateVec, Vec3.add_def, Vec3.smul_def, Vec3.dot, Vec3.cross,
      Vec3.normSq]
    ring
  rw [hexp, hk]
  ring

/-- Helper: the dot product distributes over vector addition on the right. -/
theorem Vec3.dot_add_right (u v w : Vec3 ℝ) :
    u.dot (v + w) = u.dot v + u.dot w := by
  simp only [Vec3.dot, Vec3.add_def]
  ring

/-- Helper: the dot product distributes over vector subtraction on the
right. -/
theorem Vec3.dot_sub_right (u v w : Vec3 ℝ) :
    u.dot (v - w) = u.dot v - u.dot w := by
  simp only [Vec3.dot, Vec3.sub_def]
  ring

/-- Helper: two vectors with equal components are equal. -/
theorem Vec3.eq_of_components {α : Type} (a b : Vec3 α)
    (hx : a.x = b.x) (hy : a.y = b.y) (hz : a.z = b.z) : a = b := by
  cases a
  cases b
  subst hx
  subst hy
  subst hz
  rfl

/-- Helper: normalizing is idempotent on vectors of nonzero squared norm. -/
theorem Vec3.normalize_normalize (v : Vec3 ℝ) (h : v.normSq ≠ 0) :
    v.normalize.normalize = v.normalize :=
  v.normalize.normalize_of_normSq_one (v.normSq_normalize h)

/-- Helper: the difference of two points rotated about the same center is the
rotation of their difference (Rodrigues' formula is affine-compatible). -/
theorem rotateVec_sub_cancel (k : Vec3 ℝ) (θ : ℝ) (C u v : Vec3 ℝ) :
    (C + rotateVec k θ (u - C)) - (C + rotateVec k θ (v - C))
      = rotateVec k θ (u - v) := by
  apply Vec3.eq_of_components <;>
    · simp only [rotateVec, Vec3.add_def, Vec3.sub_def, Vec3.smul_def,
        Vec3.cross, Vec3.dot]
      ring

/-- Helper: rotating two vectors about the unit-normalized direction of their
own cross product leaves the cross product unchanged (the rotation axis is
orthogonal to both vectors, so the middle Rodrigues terms cancel and the
remaining ones recombine by the Pythagorean identity). -/
theorem rotate_cross_fixed (u v : Vec3 ℝ) (θ : ℝ)
    (h : ((u.cross v).normalize).normSq = 1) :
    (rotateVec (u.cross v).normalize θ u).cross
        (rotateVec (u.cross v).normalize θ v) = u.cross v := by
  have hexpand : (rotateVec (u.cross v).normalize θ u).cross
      (rotateVec (u.cross v).normalize θ v)
      = (Real.cos θ * Real.cos θ) • (u.cross v)
        + (Real.sin θ * Real.sin θ * ((u.cross v).normalize).normSq)
          • (u.cross v) := by
    apply Vec3.eq_of_components <;>
      · simp only [rotateVec, Vec3.normalize, Vec3.cross, Vec3.dot,
          Vec3.normSq, Vec3.smul_def, Vec3.add_def, Vec3.sub_def]
        ring
  rw [hexpand, h]
  refine Vec3.eq_of_components _ _ ?_ ?_ ?_ <;>
    simp only [Vec3.smul_def, Vec3.add_def]
  · linear_combination (Vec3.cross u v).x * Real.sin_sq_add_cos_sq θ
  · linear_combination (Vec3.cross u v).y * Real.sin_sq_add_cos_sq θ
  · linear_combination (Vec3.cross u v).z * Real.sin_sq_add_cos_sq θ

/-- C8 (amended): for every `BrepPlane` whose core is consistent — unit
normal and `d = -normal·origin`, as produced by every constructor except
`from_point_normal` with a nonzero offset — `flip_normal` negates the signed
distance of every query point and `rotate_around_normal` (any angle, any
center) preserves it.  The topology-module `Plane::flip_normal` negates the
distance for every plane unconditionally, and its `rotate_around_normal`
preserves the distance for every plane whose stored fields are consistent
with a `PointNormal` provenance (any offset), with a `ThreePoints` provenance
(non-collinear), or whose provenance is a standard/unknown tag (nothing is
recomputed).  The identities fail for a `BrepPlane` built with a nonzero
offset (the transforms recompute `d` from the stored origin, which is off
the plane by the offset) and for the topology rotate on `LineAngle`
provenance (the re-derived frame reselects its up-vector, which can flip the
normal). -/
theorem plane_transform_distance (p : BrepPlane) (tp : TopoPlane)
    (hn : p.core.normal.normSq = 1)
    (hd : p.core.d = -(p.core.normal.dot p.core.origin)) :
    (∀ q, p.flip_normal.distance q = -(p.distance q)) ∧
    (∀ (θ : ℝ) (c : Option (Vec3 ℝ)) (q : Vec3 ℝ),
      (p.rotate_around_normal θ c).distance q = p.distance q) ∧
    (∀ q, tp.flip_normal.distance q = -(tp.distance q)) ∧
    (∀ (tp2 : TopoPlane) (point n0 : Vec3 ℝ) (off : Option ℝ),
      tp2.origin = TopoPlaneOrigin.PointNormal point n0 off →
      tp2.normal.normSq ≠ 0 →
      tp2.d = -(tp2.normal.normalize.dot point) + off.getD 0 →
      ∀ (θ : ℝ) (cc : Option (Vec3 ℝ)) (q : Vec3 ℝ),
        (tp2.rotate_around_normal θ cc).distance q = tp2.distance q) ∧
    (∀ (tp3 : TopoPlane) (a b c3 : Vec3 ℝ),
      tp3.origin = TopoPlaneOrigin.ThreePoints a b c3 →
      ((b - a).cross (c3 - a)).normSq ≠ 0 →
      tp3.normal = ((b - a).cross (c3 - a)).normalize →
      tp3.d = -(tp3.normal.dot a) →
      ∀ (θ : ℝ) (cc : Option (Vec3 ℝ)) (q : Vec3 ℝ),
        (tp3.rotate_around_normal θ cc).distance q = tp3.distance q) ∧
    (∀ (tp4 : TopoPlane),
      (tp4.origin = TopoPlaneOrigin.StandardXY ∨
       tp4.origin = TopoPlaneOrigin.StandardYZ ∨
       tp4.origin = TopoPlaneOrigin.StandardZX ∨
       tp4.origin = TopoPlaneOrigin.Unknown) →
      ∀ (θ : ℝ) (cc : Option (Vec3 ℝ)) (q : Vec3 ℝ),
        (tp4.rotate_around_normal θ cc).distance q = tp4.distance q) := by
  have hnorm : p.core.normal.normalize = p.core.normal :=
    p.core.normal.normalize_of_normSq_one hn
  have hflipnorm : (-p.core.normal).normalize = -p.core.normal :=
    (-p.core.normal).normalize_of_normSq_one
      (by rw [p.core.normal.normSq_neg]; exact hn)
  refine ⟨?_, ?_, ?_, ?_, ?_, ?_⟩
  · intro q
    simp only [BrepPlane.flip_normal, BrepPlane.distance, BrepPlane.new,
      CorePlane.new, CorePlane.distance, hflipnorm]
    rw [hd]
    simp only [Vec3.dot, Vec3.neg_def]
    ring
  · intro θ c q
    simp only [BrepPlane.rotate_around_normal, BrepPlane.distance,
      BrepPlane.new, CorePlane.new, CorePlane.distance, hnorm]
    rw [Vec3.dot_add_right,
      p.core.normal.dot_rotateVec (p.core.origin - c.getD p.core.origin) θ hn,
      Vec3.dot_sub_right, hd]
    ring
  · intro q
    simp only [TopoPlane.flip_normal, TopoPlane.distance, Vec3.dot,
      Vec3.neg_def]
    ring
  · intro tp2 point n0 off horig hnz hd2 θ cc q
    have haxis1 : (tp2.normal.normalize).normSq = 1 :=
      tp2.normal.normSq_normalize hnz
    simp only [TopoPlane.rotate_around_normal, TopoPlane.distance, horig]
    rw [Vec3.dot_add_right, Vec3.dot_rotateVec _ _ θ haxis1,
      Vec3.dot_sub_right, hd2]
    ring
  · intro tp3 a b c3 horig hw hnormal hd3 θ cc q
    have hnn1 : (((b - a).cross (c3 - a)).normalize).normSq = 1 :=
      ((b - a).cross (c3 - a)).normSq_normalize hw
    have haxis : tp3.normal.normalize = ((b - a).cross (c3 - a)).normalize := by
      rw [hnormal]
      exact ((b - a).cross (c3 - a)).normalize_normalize hw
    simp only [TopoPlane.rotate_around_normal, TopoPlane.distance, horig, haxis]
    rw [rotateVec_sub_cancel, rotateVec_sub_cancel,
      rotate_cross_fixed (b - a) (c3 - a) θ hnn1]
    rw [Vec3.dot_add_right, Vec3.dot_rotateVec _ _ θ hnn1,
      Vec3.dot_sub_right, hd3, hnormal]
    ring
  · intro tp4 horig θ cc q
    rcases horig with h | h | h | h <;>
      simp only [TopoPlane.rotate_around_normal, TopoPlane.distance, h]

/-- C8 witness: the standard XY plane (unit normal, `d = 0 = -n·origin`):
flipping negates the distance of `(1,2,3)` and an arbitrary rotation about
the normal preserves it; the topology XY plane flips likewise, its
standard-provenance rotate leaves the distance unchanged, and a topology
plane with consistent `PointNormal` provenance and offset 5 keeps its
distance under rotation about an off-plane center. -/
theorem plane_transform_distance_witness :
    (BrepPlane.new CorePlane.xy).flip_normal.distance ⟨1, 2, 3⟩
      = -((BrepPlane.new CorePlane.xy).distance ⟨1, 2, 3⟩) ∧
    ((BrepPlane.new CorePlane.xy).rotate_around_normal 1 none).distance ⟨1, 2, 3⟩
      = (BrepPlane.new CorePlane.xy).distance ⟨1, 2, 3⟩ ∧
    (TopoPlane.mk ⟨0, 0, 1⟩ 0 TopoPlaneOrigin.StandardXY 0 true true
        TopoPlaneRenderMode.Simple).flip_normal.distance ⟨1, 2, 3⟩
      = -((TopoPlane.mk ⟨0, 0, 1⟩ 0 TopoPlaneOrigin.StandardXY 0 true true
        TopoPlaneRenderMode.Simple).distance ⟨1, 2, 3⟩) ∧
    ((TopoPlane.mk ⟨0, 0, 1⟩ 0 TopoPlaneOrigin.StandardXY 0 true true
        TopoPlaneRenderMode.Simple).rotate_around_normal 1 none).distance ⟨1, 2, 3⟩
      = (TopoPlane.mk ⟨0, 0, 1⟩ 0 TopoPlaneOrigin.StandardXY 0 true true
        TopoPlaneRenderMode.Simple).distance ⟨1, 2, 3⟩ ∧
    ((TopoPlane.mk ⟨0, 0, 1⟩ 5
        (TopoPlaneOrigin.PointNormal ⟨0, 0, 0⟩ ⟨0, 0, 1⟩ (some 5)) 0 true true
        TopoPlaneRenderMode.Simple).rotate_around_normal 2
          (some ⟨1, 1, 1⟩)).distance ⟨0, 0, 7⟩
      = (TopoPlane.mk ⟨0, 0, 1⟩ 5
        (TopoPlaneOrigin.PointNormal ⟨0, 0, 0⟩ ⟨0, 0, 1⟩ (some 5)) 0 true true
        TopoPlaneRenderMode.Simple).distance ⟨0, 0, 7⟩ := by
  have h := plane_transform_distance (BrepPlane.new CorePlane.xy)
    (TopoPlane.mk ⟨0, 0, 1⟩ 0 TopoPlaneOrigin.StandardXY 0 true true
      TopoPlaneRenderMode.Simple)
    (by norm_num [BrepPlane.new, CorePlane.xy, construct_xy_plane, Vec3.normSq])
    (by norm_num [BrepPlane.new, CorePlane.xy, construct_xy_plane, Vec3.dot])
  have hz1 : (⟨0, 0, 1⟩ : Vec3 ℝ).normalize = ⟨0, 0, 1⟩ :=
    Vec3.normalize_of_normSq_one _ (by norm_num [Vec3.normSq])
  refine ⟨h.1 ⟨1, 2, 3⟩, h.2.1 1 none ⟨1, 2, 3⟩, h.2.2.1 ⟨1, 2, 3⟩,
    h.2.2.2.2.2 _ (Or.inl rfl) 1 none ⟨1, 2, 3⟩,
    h.2.2.2.1 _ ⟨0, 0, 0⟩ ⟨0, 0, 1⟩ (some 5) rfl
      (by norm_num [Vec3.normSq]) ?_ 2 (some ⟨1, 1, 1⟩) ⟨0, 0, 7⟩⟩
  show (5 : ℝ) = -((⟨0, 0, 1⟩ : Vec3 ℝ).normalize.dot ⟨0, 0, 0⟩)
    + (some (5 : ℝ)).getD 0
  rw [hz1]
  norm_num [Vec3.dot]

/-- C8 counterexample: two concrete inputs refute the claim for arbitrary
planes.  First, the `BrepPlane` through the origin with normal `(0,0,1)` and
offset 5 has signed distance 5 at the origin, but its `flip_normal` reports
distance 0 there instead of `-5`: the flip recomputes `d` from the stored
origin and drops the offset.  Second, the topology-module
`Plane::rotate_around_normal` on the `LineAngle` plane built from point
`(0,0,0)`, direction `(1,0,0)` and angle `π/2` (the XY plane, distance 1 at
`(0,0,1)`), rotated by `π/2` about its own normal, reports distance `-1` at
`(0,0,1)`: the recomputation reselects the frame's up-vector for the rotated
direction and flips the normal, so the rotated plane does not preserve
`distance`. -/
theorem plane_transform_counterexample :
    (BrepPlane.from_point_normal ⟨0, 0, 0⟩ ⟨0, 0, 1⟩ (some 5)).map
        (fun p => p.flip_normal.distance ⟨0, 0, 0⟩) = some 0 ∧
    (BrepPlane.from_point_normal ⟨0, 0, 0⟩ ⟨0, 0, 1⟩ (some 5)).map
        (fun p => -(p.distance ⟨0, 0, 0⟩)) = some (-5) ∧
    some (0 : ℝ) ≠ some (-5 : ℝ) ∧
    ((TopoPlane.from_line_angle ⟨0, 0, 0⟩ ⟨1, 0, 0⟩
        (Real.pi / 2)).rotate_around_normal (Real.pi / 2) none).distance
        ⟨0, 0, 1⟩ = -1 ∧
    (TopoPlane.from_line_angle ⟨0, 0, 0⟩ ⟨1, 0, 0⟩ (Real.pi / 2)).distance
        ⟨0, 0, 1⟩ = 1 ∧
    (-1 : ℝ) ≠ 1 := by
  have hz : (⟨0, 0, 1⟩ : Vec3 ℝ).normSq = 1 := by
    norm_num [Vec3.normSq]
  have h1 : (⟨0, 0, 1⟩ : Vec3 ℝ).norm = 1 := by
    unfold Vec3.norm
    rw [hz, Real.sqrt_one]
  have hnn : (⟨0, 0, 1⟩ : Vec3 ℝ).normalize = ⟨0, 0, 1⟩ :=
    Vec3.normalize_of_normSq_one _ hz
  have hfn : (-(⟨0, 0, 1⟩ : Vec3 ℝ)).normalize = -(⟨0, 0, 1⟩ : Vec3 ℝ) :=
    Vec3.normalize_of_normSq_one _ (by rw [Vec3.normSq_neg]; exact hz)
  have hx100 : (⟨1, 0, 0⟩ : Vec3 ℝ).normalize = ⟨1, 0, 0⟩ :=
    Vec3.normalize_of_normSq_one _ (by norm_num [Vec3.normSq])
  have hy010 : (⟨0, 1, 0⟩ : Vec3 ℝ).normalize = ⟨0, 1, 0⟩ :=
    Vec3.normalize_of_normSq_one _ (by norm_num [Vec3.normSq])
  have hzn : (⟨0, 0, -1⟩ : Vec3 ℝ).normalize = ⟨0, 0, -1⟩ :=
    Vec3.normalize_of_normSq_one _ (by norm_num [Vec3.normSq])
  have hcp : CorePlane.from_point_normal ⟨0, 0, 0⟩ ⟨0, 0, 1⟩ (some 5) =
      some { normal := ⟨0, 0, 1⟩, d := 5, origin := ⟨0, 0, 0⟩,
             construction_origin :=
               PlaneOrigin.PointNormal ⟨0, 0, 0⟩ ⟨0, 0, 1⟩ (some 5) } := by
    unfold CorePlane.from_point_normal construct_plane_from_point_normal
    rw [if_neg (by rw [h1]; norm_num)]
    simp [hnn, Vec3.dot]
  have hcomb : (Real.cos (Real.pi / 2)) • (⟨1, 0, 0⟩ : Vec3 ℝ)
      + (Real.sin (Real.pi / 2)) • (⟨0, 0, 1⟩ : Vec3 ℝ) = ⟨0, 0, 1⟩ := by
    rw [Real.cos_pi_div_two, Real.sin_pi_div_two]
    refine Vec3.eq_of_components _ _ ?_ ?_ ?_ <;>
      norm_num [Vec3.smul_def, Vec3.add_def]
  have hcr1 : (⟨1, 0, 0⟩ : Vec3 ℝ).cross ⟨0, 1, 0⟩ = ⟨0, 0, 1⟩ := by
    refine Vec3.eq_of_components _ _ ?_ ?_ ?_ <;> norm_num [Vec3.cross]
  have hlp : TopoPlane.from_line_angle ⟨0, 0, 0⟩ ⟨1, 0, 0⟩ (Real.pi / 2) =
      { normal := ⟨0, 0, 1⟩, d := 0,
        origin := TopoPlaneOrigin.LineAngle ⟨0, 0, 0⟩ ⟨1, 0, 0⟩ (Real.pi / 2),
        rotation := 0, facing := true, visible := true,
        render_mode := TopoPlaneRenderMode.Simple } := by
    simp only [TopoPlane.from_line_angle, TopoPlane.from_point_normal, hx100]
    rw [if_neg (by norm_num), hcr1, hnn, hcomb]
    simp [hnn, Vec3.dot]
  refine ⟨?_, ?_, by norm_num, ?_, ?_, by norm_num⟩
  · rw [BrepPlane.from_point_normal, hcp]
    simp [BrepPlane.new, BrepPlane.flip_normal, BrepPlane.distance,
      CorePlane.new, CorePlane.distance, hfn, Vec3.dot, Vec3.neg_def]
  · rw [BrepPlane.from_point_normal, hcp]
    simp [BrepPlane.new, BrepPlane.distance, CorePlane.distance, Vec3.dot]
  · rw [hlp]
    norm_num [TopoPlane.rotate_around_normal, TopoPlane.distance, rotateVec,
      Vec3.cross, Vec3.dot, Vec3.smul_def, Vec3.add_def, Vec3.sub_def,
      hnn, hy010, hzn, Real.cos_pi_div_two, Real.sin_pi_div_two, Option.getD]
  · rw [hlp]
    norm_num [TopoPlane.distance, Vec3.dot]

end Xrcad
